import Mathlib

/-!
Verification of the score-persistence, quiz-scoring, catalog-loading and
LLM-error-handling core of the DraftAPI_GPTs application (`src/app.py`,
`src/pages/1_level_1_Quiz.py`, `src/pages/5_Level_5_MultiSelect.py`).

The Python functions are shallowly embedded as Lean functions:

* Python dicts become association lists `List (String × α)` with
  first-match lookup (`dictGet?`) and replace-or-append update
  (`dictInsert`), matching CPython dict semantics (a key update keeps the
  key's position, a fresh key is appended).
* The on-disk score file `quiz_scores.json` becomes `ScoreFile`: it is
  absent, unreadable (opening or decoding it raises an exception that is
  not a `json.JSONDecodeError`, e.g. `PermissionError` or
  `UnicodeDecodeError`), present but not valid JSON (`json.load` raises
  `json.JSONDecodeError`), or parsed as the nested store mapping.
* Exceptions that a modelled code path can raise become `Except PyErr`.
* The external chat SDK call is abstracted as a `ProviderOutcome` input:
  the call either returns a payload or raises an exception with a message,
  exactly the two behaviours the `try`/`except` blocks in the source
  distinguish.
-/

/-- Value submitted for one question: free text for open-ended questions,
a single option key for single-select, a list of option keys for
multi-select (`answer_data: Dict[str, Any]` in the source). -/
inductive SubmittedValue
  | text (s : String)
  | keys (ks : List String)
deriving DecidableEq, Repr

/-- Mapping `question_id -> submitted_value`, the `answer_data` dict. -/
abbrev Answers := List (String × SubmittedValue)

/-- One leaf of the score store, written by `save_score`:
`{"score_value": ..., "date": ..., "answers": ...}`. -/
structure ScoreRecord where
  score_value : Int
  date : String
  answers : Answers
deriving DecidableEq, Repr

/-- One user's entry: mapping `level_name -> ScoreRecord`. -/
abbrev UserScores := List (String × ScoreRecord)

/-- The nested store mapping `user_id -> level_name -> ScoreRecord`. -/
abbrev Store := List (String × UserScores)

/-- Python exceptions that the modelled code paths can let escape. -/
inductive PyErr
  | osError
  | attributeError
deriving DecidableEq, Repr

/-- State of the on-disk score file `quiz_scores.json`. -/
inductive ScoreFile
  | absent
  | unreadable
  | noParse
  | store (s : Store)
deriving DecidableEq, Repr

/-- First-match lookup in an association list; Python `d[k]` / `d.get(k)`. -/
def dictGet? {α : Type} (d : List (String × α)) (k : String) : Option α :=
  match d with
  | [] => none
  | (k', v) :: rest => if k' = k then some v else dictGet? rest k

/-- Python `d[k] = v`: replace the first binding of `k` in place, or append
a fresh binding at the end. -/
def dictInsert {α : Type} (d : List (String × α)) (k : String) (v : α) :
    List (String × α) :=
  match d with
  | [] => [(k, v)]
  | (k', v') :: rest =>
      if k' = k then (k, v) :: rest else (k', v') :: dictInsert rest k v

/-- `load_scores` (identical in `app.py:70-75`, `1_level_1_Quiz.py:21-26`,
`5_Level_5_MultiSelect.py:19-24`): a missing file yields `{}`; the body is
wrapped in `try ... except json.JSONDecodeError: return {}`, so a JSON
parse failure yields `{}` but any other exception while opening or
decoding the file (e.g. `PermissionError`, `UnicodeDecodeError`) is not
caught and propagates to the caller. -/
def load_scores : ScoreFile → Except PyErr Store
  | .absent => .ok []
  | .unreadable => .error .osError
  | .noParse => .ok []
  | .store s => .ok s

/-- Body of `save_score` after `load_scores` returned the dict
`all_scores` (`5_Level_5_MultiSelect.py:28-35`): ensure the user entry
exists, then set `all_scores[username][level]` to the fresh record. -/
def save_store (all_scores : Store) (username level : String) (score : Int)
    (now : String) (answer_data : Answers) : Store :=
  let ensured :=
    if (dictGet? all_scores username).isSome then all_scores
    else dictInsert all_scores username []
  let user_levels := (dictGet? ensured username).getD []
  dictInsert ensured username
    (dictInsert user_levels level ⟨score, now, answer_data⟩)

/-- `save_score(username, level, score, answer_data)`
(`5_Level_5_MultiSelect.py:26-36`, `1_level_1_Quiz.py:28-40`): load the
full store (propagating an uncaught load exception), merge in the new
record, write the whole store back. The result is the new file state. -/
def save_score (fs : ScoreFile) (username level : String) (score : Int)
    (now : String) (answer_data : Answers) : Except PyErr ScoreFile :=
  (load_scores fs).map fun all_scores =>
    .store (save_store all_scores username level score now answer_data)

/-- Nested lookup in a loaded store:
`all_scores.get(username, {}).get(level)`. -/
def get_store (s : Store) (username level : String) : Option ScoreRecord :=
  (dictGet? s username).bind fun levels => dictGet? levels level

/-- Read a record back from the file through `load_scores`, as the review
screen does (`5_Level_5_MultiSelect.py:207`). A load exception yields no
record. -/
def get_score (fs : ScoreFile) (username level : String) :
    Option ScoreRecord :=
  match load_scores fs with
  | .error _ => none
  | .ok s => get_store s username level

-- Association-list dictionary lemmas

theorem dictGet_dictInsert_self {α : Type} (d : List (String × α))
    (k : String) (v : α) : dictGet? (dictInsert d k v) k = some v := by
  induction d with
  | nil => simp [dictInsert, dictGet?]
  | cons hd tl ih =>
      obtain ⟨k', v'⟩ := hd
      by_cases h : k' = k
      · simp [dictInsert, dictGet?, h]
      · simp [dictInsert, dictGet?, h, ih]

theorem dictGet_dictInsert_ne {α : Type} (d : List (String × α))
    (k k' : String) (v : α) (h : k' ≠ k) :
    dictGet? (dictInsert d k v) k' = dictGet? d k' := by
  induction d with
  | nil => simp [dictInsert, dictGet?, Ne.symm h]
  | cons hd tl ih =>
      obtain ⟨a, b⟩ := hd
      by_cases ha : a = k
      · subst ha
        simp [dictInsert, dictGet?, Ne.symm h]
      · simp [dictInsert, dictGet?, ha, ih]

theorem dictInsert_dictInsert {α : Type} (d : List (String × α))
    (k : String) (v1 v2 : α) :
    dictInsert (dictInsert d k v1) k v2 = dictInsert d k v2 := by
  induction d with
  | nil => simp [dictInsert]
  | cons hd tl ih =>
      obtain ⟨a, b⟩ := hd
      by_cases ha : a = k
      · simp [dictInsert, ha]
      · simp [dictInsert, ha, ih]

-- Core store lemmas shared by the claims

theorem get_store_save_store_self (s : Store) (u l : String) (sc : Int)
    (now : String) (a : Answers) :
    get_store (save_store s u l sc now a) u l = some ⟨sc, now, a⟩ := by
  simp [get_store, save_store, dictGet_dictInsert_self]

theorem save_store_overwrite (s : Store) (u l : String) (sc1 sc2 : Int)
    (t1 t2 : String) (a1 a2 : Answers) :
    save_store (save_store s u l sc1 t1 a1) u l sc2 t2 a2
      = save_store s u l sc2 t2 a2 := by
  simp [save_store, dictGet_dictInsert_self, dictInsert_dictInsert]

theorem get_store_save_store_frame (s : Store) (u l : String) (sc : Int)
    (now : String) (a : Answers) (u' l' : String)
    (h : u' ≠ u ∨ l' ≠ l) :
    get_store (save_store s u l sc now a) u' l' = get_store s u' l' := by
  by_cases hu : u' = u
  · subst hu
    have hl : l' ≠ l := by
      rcases h with hu' | hl
      · exact absurd rfl hu'
      · exact hl
    cases hs : dictGet? s u' with
    | some d =>
        simp [save_store, get_store, hs, dictGet_dictInsert_self,
          dictGet_dictInsert_ne _ _ _ _ hl]
    | none =>
        simp [save_store, get_store, hs, dictGet_dictInsert_self,
          dictGet_dictInsert_ne _ _ _ _ hl, dictGet?, Ne.symm hl]
  · cases hs : dictGet? s u with
    | some d =>
        simp [save_store, get_store, hs,
          dictGet_dictInsert_ne _ _ _ _ hu]
    | none =>
        simp [save_store, get_store, hs,
          dictGet_dictInsert_ne _ _ _ _ hu]

-- Scorers

/-- Q1 multi-select scoring (`5_Level_5_MultiSelect.py:176-178`):
`score_q1 = len(set(user_selected_keys_q1) & set(correct_answers))`. -/
def score_q1 (user_selected_keys correct_answers : List String) : Nat :=
  (user_selected_keys.toFinset ∩ correct_answers.toFinset).card

/-- Q2 single-select scoring (`5_Level_5_MultiSelect.py:181`):
`score_q2 = 1 if user_selected_key_q2 == q2_data['correct_answer'] else 0`. -/
def score_q2 (user_selected_key correct_answer : String) : Nat :=
  if user_selected_key = correct_answer then 1 else 0

/-- One open-ended question of the catalog: `{"question": ..., "memo": ...}`. -/
structure Question where
  question : String
  memo : String
deriving DecidableEq, Repr

/-- One level of the quiz catalog: mapping `question_id -> Question`.
CPython dicts have unique keys, so the list length is the number of
questions. -/
abbrev QuizLevelData := List (String × Question)

/-- Score computed by the finalize button of an open-ended level
(`1_level_1_Quiz.py:206`): `final_score = len(QUIZ_DATA)`, independent of
the answers. -/
def finalize_score (quiz_data : QuizLevelData) : Nat :=
  quiz_data.length

/-- Finalize handler (`1_level_1_Quiz.py:201-212`): compute
`final_score = len(QUIZ_DATA)` and persist it with the session answers via
`save_score`. -/
def finalize_and_save (fs : ScoreFile) (username level : String)
    (quiz_data : QuizLevelData) (answers : Answers) (now : String) :
    Except PyErr ScoreFile :=
  save_score fs username level (Int.ofNat (finalize_score quiz_data)) now
    answers

-- Quiz catalog loading

/-- JSON values as returned by `json.load` for the quiz catalog file. -/
inductive CatJson
  | null
  | bool (b : Bool)
  | num (n : Int)
  | str (s : String)
  | arr (elems : List CatJson)
  | obj (entries : List (String × CatJson))

/-- State of the quiz catalog file `quiz_data.json`: absent, present but
not valid JSON, or parsed as a JSON value. -/
inductive CatalogFile
  | absent
  | noParse
  | parsed (j : CatJson)

/-- `load_quiz_data` (`1_level_1_Quiz.py:42-52`,
`5_Level_5_MultiSelect.py:38-48`): a missing file or a
`json.JSONDecodeError` renders an `st.error` message (first component
`true`) and returns `{}`; any value that parses as JSON is returned as-is
with no error shown, whatever its shape. -/
def load_quiz_data : CatalogFile → Bool × CatJson
  | .absent => (true, .obj [])
  | .noParse => (true, .obj [])
  | .parsed j => (false, j)

/-- Python truthiness of a JSON value (`if not FULL_QUIZ_DATA`). -/
def truthy : CatJson → Bool
  | .null => false
  | .bool b => b
  | .num n => n != 0
  | .str s => s != ""
  | .arr elems => !elems.isEmpty
  | .obj entries => !entries.isEmpty

/-- Python `x.get(key, default)`: succeeds on a dict, raises
`AttributeError` on any other JSON value. -/
def pyGet (j : CatJson) (key : String) (dflt : CatJson) :
    Except PyErr CatJson :=
  match j with
  | .obj entries => .ok ((dictGet? entries key).getD dflt)
  | _ => .error .attributeError

/-- Outcome of the module-level catalog setup of a quiz page. -/
inductive PageOutcome
  | halted
  | crashed (e : PyErr)
  | rendering (quiz_data : CatJson)

/-- Module-level catalog setup of a quiz page (`1_level_1_Quiz.py:56-66`):
`FULL_QUIZ_DATA = load_quiz_data()`; `if not FULL_QUIZ_DATA: st.stop()`;
`QUIZ_DATA = FULL_QUIZ_DATA.get(CURRENT_LEVEL_KEY, {})`;
`if not QUIZ_DATA: st.error(...); st.stop()`; otherwise the page renders
with `QUIZ_DATA`. An exception from `.get` on a non-dict value is not
caught anywhere on the page and crashes the view. -/
def quiz_page_setup (cf : CatalogFile) (levelKey : String) : PageOutcome :=
  let full := (load_quiz_data cf).snd
  if truthy full = false then .halted
  else
    match pyGet full levelKey (.obj []) with
    | .error e => .crashed e
    | .ok qd => if truthy qd = false then .halted else .rendering qd

-- Chat-provider calls

/-- The closed set of providers the dispatch branches over
(`app.py:198-234`, `1_level_1_Quiz.py:98-120`). -/
inductive Provider
  | openai
  | gemini
  | grok
deriving DecidableEq, Repr

/-- Behaviour of the external SDK call inside the `try` block: it either
returns a response payload or raises an exception rendered as `msg`. -/
inductive ProviderOutcome
  | returns (text : String)
  | throws (msg : String)
deriving DecidableEq, Repr

/-- Missing-key message of `get_llm_help` (`1_level_1_Quiz.py:77`). -/
def missingKeyHelpMsg : String :=
  "❌ ERROR: Please configure your API key on the 'Multi-LLM Chat Assistant' page first."

/-- Missing-key message of `get_llm_response` (`app.py:193`). -/
def missingKeyChatMsg : String :=
  "❌ ERROR: The API Key is missing in your `secrets.toml` file for this provider."

/-- Normalized provider-exception message (`app.py:237`,
`1_level_1_Quiz.py:123`): `f-string` rendering of the exception. -/
def apiErrorMsg (e : String) : String :=
  "❌ LLM API Error: " ++ e

/-- `get_llm_help` (`1_level_1_Quiz.py:75-123`): an empty/missing key
returns an error string before any provider call; every provider branch is
wrapped in `try ... except Exception`, whose handler returns the
normalized error string. The selected provider only changes which SDK is
called, not the error handling. -/
def get_llm_help (_selected_model : Provider) (api_key : String)
    (outcome : ProviderOutcome) : String :=
  if api_key = "" then missingKeyHelpMsg
  else
    match outcome with
    | .returns t => t
    | .throws e => apiErrorMsg e

/-- Result of `get_llm_response`: either a normalized error string or a
response payload (Gemini text, or an OpenAI/Grok stream, abstracted as the
text it delivers). -/
inductive ChatResult
  | errText (s : String)
  | payload (t : String)
deriving DecidableEq, Repr

/-- `get_llm_response` (`app.py:185-237`): inside the `try` block a
missing key returns an error string; otherwise the provider is called and
its payload returned; `except Exception` returns the normalized error
string. -/
def get_llm_response (_model_provider : Provider) (api_key : String)
    (outcome : ProviderOutcome) : ChatResult :=
  if api_key = "" then .errText missingKeyChatMsg
  else
    match outcome with
    | .returns t => .payload t
    | .throws e => .errText (apiErrorMsg e)

/-- Per-level session state of a quiz page: the answers-in-progress
(`st.session_state.multi_level_answers[level]`) and the help history
(`st.session_state.multi_level_help_history[level]`). -/
structure LevelSessionState where
  answers : Answers
  help_history : List (String × String)
deriving DecidableEq, Repr

/-- Help-button handler (`1_level_1_Quiz.py:180-187`): store the
`get_llm_help` result (success text or error string) in the help history
at the question key; the answers mapping is not touched. -/
def handle_help_click (st : LevelSessionState) (q_key : String)
    (selected_model : Provider) (api_key : String)
    (outcome : ProviderOutcome) : LevelSessionState :=
  { st with
    help_history :=
      dictInsert st.help_history q_key
        (get_llm_help selected_model api_key outcome) }

-- Claims

/-- Claim C1: round-trip — for every username, level name, integer score
and answers mapping, `save_score` on a well-formed store succeeds and
writes back a store in which reading `[user][level]` back through
`load_scores` yields a record whose `score_value` is the saved score and
whose `answers` are the saved answers (the `date` being the save
timestamp). -/
theorem claim_save_load_roundtrip :
    (∀ (s : Store) (u l : String) (sc : Int) (now : String) (a : Answers),
        save_score (.store s) u l sc now a
          = .ok (.store (save_store s u l sc now a)))
    ∧ (∀ (s : Store) (u l : String) (sc : Int) (now : String) (a : Answers),
        get_score (.store (save_store s u l sc now a)) u l
          = some ⟨sc, now, a⟩) := by
  constructor
  · intro s u l sc now a
    rfl
  · intro s u l sc now a
    simpa [get_score, load_scores] using
      get_store_save_store_self s u l sc now a

/-- Claim C2: multi-select scoring — the score is the cardinality of the
intersection of the submitted key set with the correct key set, selecting
extra keys never reduces the score, and the three concrete spec examples
hold: submitted A,C against correct A,B,D scores 1; submitted A,B,D
against correct A,B,D scores 3; an empty submission scores 0. -/
theorem claim_multiselect_partial_credit :
    (∀ sub cor : List String,
        score_q1 sub cor = (sub.toFinset ∩ cor.toFinset).card)
    ∧ (∀ sub extra cor : List String,
        score_q1 sub cor ≤ score_q1 (sub ++ extra) cor)
    ∧ score_q1 ["A", "C"] ["A", "B", "D"] = 1
    ∧ score_q1 ["A", "B", "D"] ["A", "B", "D"] = 3
    ∧ score_q1 [] ["A", "B", "D"] = 0 := by
  refine ⟨fun sub cor => rfl, fun sub extra cor => ?_,
    by decide, by decide, by decide⟩
  apply Finset.card_le_card
  apply Finset.inter_subset_inter_right
  intro x hx
  simp only [List.mem_toFinset, List.mem_append] at hx ⊢
  exact Or.inl hx

/-- Claim C3: single-select scoring — the score is 1 exactly when the
submitted key equals the sole correct key and 0 otherwise; against any
nonempty correct key an empty-string submission scores 0, and the three
concrete spec examples hold. -/
theorem claim_singleselect_exact_match :
    (∀ sub cor : String, score_q2 sub cor = if sub = cor then 1 else 0)
    ∧ (∀ cor : String, cor ≠ "" → score_q2 "" cor = 0)
    ∧ score_q2 "B" "B" = 1
    ∧ score_q2 "C" "B" = 0
    ∧ score_q2 "" "B" = 0 := by
  refine ⟨fun sub cor => rfl, fun cor h => ?_, by decide, by decide,
    by decide⟩
  simp [score_q2, Ne.symm h]

/-- Witness for claim C3 at the concrete correct key "B". -/
theorem claim_singleselect_exact_match_witness :
    score_q2 "" "B" = 0 :=
  claim_singleselect_exact_match.2.1 "B" (by decide)

/-- Claim C4: open-ended finalization — `finalize_and_save` persists a
score equal to the number of questions in the level, independently of the
submitted answers (the answers are universally quantified, including
all-empty ones), and a level with 2 questions finalizes to score 2. -/
theorem claim_openended_attempt_count :
    (∀ (s : Store) (u l : String) (qd : QuizLevelData) (a : Answers)
        (now : String),
        finalize_and_save (.store s) u l qd a now
          = .ok (.store
              (save_store s u l (Int.ofNat (finalize_score qd)) now a)))
    ∧ (∀ (s : Store) (u l : String) (qd : QuizLevelData) (a : Answers)
        (now : String),
        get_score
            (.store (save_store s u l (Int.ofNat (finalize_score qd)) now a))
            u l
          = some ⟨Int.ofNat qd.length, now, a⟩)
    ∧ (∀ e1 e2 : String × Question, finalize_score [e1, e2] = 2) := by
  refine ⟨fun s u l qd a now => rfl, fun s u l qd a now => ?_,
    fun e1 e2 => rfl⟩
  simpa [get_score, load_scores, finalize_score] using
    get_store_save_store_self s u l (Int.ofNat qd.length) now a

/-- Claim C5: overwrite, not accumulation — saving twice at the same
(user, level) key produces exactly the store obtained by performing only
the second save (so no trace of the first record remains anywhere), and
the record read back at the key is the second one. -/
theorem claim_save_overwrites :
    (∀ (s : Store) (u l : String) (sc1 sc2 : Int) (t1 t2 : String)
        (a1 a2 : Answers),
        save_store (save_store s u l sc1 t1 a1) u l sc2 t2 a2
          = save_store s u l sc2 t2 a2)
    ∧ (∀ (s : Store) (u l : String) (sc1 sc2 : Int) (t1 t2 : String)
        (a1 a2 : Answers),
        get_store (save_store (save_store s u l sc1 t1 a1) u l sc2 t2 a2)
            u l
          = some ⟨sc2, t2, a2⟩) := by
  refine ⟨fun s u l sc1 sc2 t1 t2 a1 a2 =>
    save_store_overwrite s u l sc1 sc2 t1 t2 a1 a2,
    fun s u l sc1 sc2 t1 t2 a1 a2 => ?_⟩
  rw [save_store_overwrite]
  exact get_store_save_store_self s u l sc2 t2 a2

/-- Claim C6 counterexample: an unreadable score file (it exists, but
opening or decoding it raises an exception that is not a
`json.JSONDecodeError`, e.g. `PermissionError` or `UnicodeDecodeError`)
makes `load_scores` propagate the exception instead of returning the
empty mapping, refuting the claim that load never raises for every file
state. -/
theorem claim_load_soft_fail_cex :
    load_scores ScoreFile.unreadable = Except.error PyErr.osError
    ∧ load_scores ScoreFile.unreadable ≠ Except.ok ([] : Store) :=
  ⟨rfl, fun h => nomatch h⟩

/-- Claim C6 as amended: `load_scores` returns the empty mapping on a
missing file and on a JSON parse failure, and returns a well-formed store
unchanged; but an exception other than a JSON parse error while opening
or reading the file is not caught and propagates to the caller. -/
theorem claim_load_soft_fail_amended :
    load_scores ScoreFile.absent = Except.ok ([] : Store)
    ∧ load_scores ScoreFile.noParse = Except.ok ([] : Store)
    ∧ (∀ s : Store, load_scores (ScoreFile.store s) = Except.ok s)
    ∧ load_scores ScoreFile.unreadable = Except.error PyErr.osError :=
  ⟨rfl, rfl, fun _ => rfl, rfl⟩

/-- Claim C7: frame property of save — every record stored at a key
(user', level') different from the saved (user, level) is unchanged in the
store written back, and the user's entry exists in the written store even
when it was absent before. -/
theorem claim_save_frame :
    (∀ (s : Store) (u l : String) (sc : Int) (now : String) (a : Answers)
        (u' l' : String), u' ≠ u ∨ l' ≠ l →
        get_store (save_store s u l sc now a) u' l' = get_store s u' l')
    ∧ (∀ (s : Store) (u l : String) (sc : Int) (now : String)
        (a : Answers),
        (dictGet? (save_store s u l sc now a) u).isSome = true) := by
  constructor
  · intro s u l sc now a u' l' h
    exact get_store_save_store_frame s u l sc now a u' l' h
  · intro s u l sc now a
    simp [save_store, dictGet_dictInsert_self]

/-- Witness for claim C7: saving for "bob" leaves "alice"'s record at
Level 1 untouched. -/
theorem claim_save_frame_witness :
    get_store
        (save_store
          [("alice", [("Level 1: Fundamentals",
              ⟨2, "2024-01-01 00:00:00", []⟩)])]
          "bob" "Level 5: Multi-Select" 3 "2024-01-02 00:00:00" [])
        "alice" "Level 1: Fundamentals"
      = get_store
          [("alice", [("Level 1: Fundamentals",
              ⟨2, "2024-01-01 00:00:00", []⟩)])]
          "alice" "Level 1: Fundamentals" :=
  claim_save_frame.1 _ "bob" "Level 5: Multi-Select" 3 "2024-01-02 00:00:00"
    [] "alice" "Level 1: Fundamentals" (Or.inl (by decide))

/-- Claim C8 counterexample: a catalog file that exists and is valid JSON
but not of the expected nested mapping shape (here the array `[1]`) is
returned by `load_quiz_data` with no error signalled (no CatalogMalformed
handling), and the caller's level lookup then raises an uncaught
`AttributeError` instead of halting rendering gracefully. -/
theorem claim_catalog_errors_cex :
    (load_quiz_data
        (CatalogFile.parsed (CatJson.arr [CatJson.num 1]))).fst = false
    ∧ quiz_page_setup (CatalogFile.parsed (CatJson.arr [CatJson.num 1]))
        "Level 1: Fundamentals"
      = PageOutcome.crashed PyErr.attributeError :=
  ⟨rfl, rfl⟩

/-- Claim C8 as amended: `load_quiz_data` signals an error and returns an
empty catalog when the backing file is missing (CatalogMissing) or is not
valid JSON (CatalogMalformed), and in both cases the caller detects the
empty result and halts rendering without substituting a partial catalog;
a catalog that is a JSON object without the requested level also halts
gracefully; but valid JSON of a non-object shape is returned without any
error and crashes the caller with an uncaught `AttributeError`. -/
theorem claim_catalog_errors_amended :
    load_quiz_data CatalogFile.absent = (true, CatJson.obj [])
    ∧ load_quiz_data CatalogFile.noParse = (true, CatJson.obj [])
    ∧ (∀ lk : String, quiz_page_setup CatalogFile.absent lk
        = PageOutcome.halted)
    ∧ (∀ lk : String, quiz_page_setup CatalogFile.noParse lk
        = PageOutcome.halted)
    ∧ (∀ (entries : List (String × CatJson)) (lk : String),
        dictGet? entries lk = none → truthy (CatJson.obj entries) = true →
        quiz_page_setup (CatalogFile.parsed (CatJson.obj entries)) lk
          = PageOutcome.halted)
    ∧ (∀ (j : CatJson) (lk : String),
        (∀ entries, j ≠ CatJson.obj entries) → truthy j = true →
        quiz_page_setup (CatalogFile.parsed j) lk
          = PageOutcome.crashed PyErr.attributeError) := by
  refine ⟨rfl, rfl, fun lk => rfl, fun lk => rfl,
    fun entries lk h1 h2 => ?_, fun j lk hobj ht => ?_⟩
  · simp [quiz_page_setup, load_quiz_data, pyGet, truthy, h1, h2]
  · cases j with
    | obj entries => exact absurd rfl (hobj entries)
    | null => simp [truthy] at ht
    | bool b => simp [quiz_page_setup, load_quiz_data, pyGet, ht]
    | num n => simp [quiz_page_setup, load_quiz_data, pyGet, ht]
    | str s => simp [quiz_page_setup, load_quiz_data, pyGet, ht]
    | arr elems => simp [quiz_page_setup, load_quiz_data, pyGet, ht]

/-- Witness for claim C8 as amended: a parsed object catalog without the
requested level halts the page gracefully. -/
theorem claim_catalog_errors_witness :
    quiz_page_setup
        (CatalogFile.parsed (CatJson.obj [("Other Level", CatJson.num 1)]))
        "Level 1: Fundamentals"
      = PageOutcome.halted :=
  claim_catalog_errors_amended.2.2.2.2.1 [("Other Level", CatJson.num 1)]
    "Level 1: Fundamentals" rfl rfl

/-- Claim C9: provider error normalization — a missing key or a
provider-raised exception makes `get_llm_help` and `get_llm_response`
return a human-readable error string (both functions are total, mirroring
the catch-all `except Exception` handlers, so nothing propagates), and the
help flow never touches the answers mapping, so the persisted record's
answers contain no error string from a provider call. -/
theorem claim_provider_error_normalized :
    (∀ (p : Provider) (o : ProviderOutcome),
        get_llm_help p "" o = missingKeyHelpMsg)
    ∧ (∀ (p : Provider) (k e : String), k ≠ "" →
        get_llm_help p k (.throws e) = apiErrorMsg e)
    ∧ (∀ (p : Provider) (o : ProviderOutcome),
        get_llm_response p "" o = .errText missingKeyChatMsg)
    ∧ (∀ (p : Provider) (k e : String), k ≠ "" →
        get_llm_response p k (.throws e) = .errText (apiErrorMsg e))
    ∧ (∀ (st : LevelSessionState) (q : String) (p : Provider) (k : String)
        (o : ProviderOutcome),
        (handle_help_click st q p k o).answers = st.answers) := by
  refine ⟨fun p o => rfl, fun p k e h => ?_, fun p o => rfl,
    fun p k e h => ?_, fun st q p k o => rfl⟩
  · simp [get_llm_help, h]
  · simp [get_llm_response, h]

/-- Witness for claim C9 at a concrete nonempty key and exception. -/
theorem claim_provider_error_normalized_witness :
    get_llm_help Provider.openai "sk-test" (ProviderOutcome.throws "boom")
      = apiErrorMsg "boom"
    ∧ get_llm_response Provider.grok "sk-test"
        (ProviderOutcome.throws "boom")
      = ChatResult.errText (apiErrorMsg "boom") :=
  ⟨claim_provider_error_normalized.2.1 Provider.openai "sk-test" "boom"
      (by decide),
    claim_provider_error_normalized.2.2.2.1 Provider.grok "sk-test" "boom"
      (by decide)⟩

/-- Claim C10: saving over an unparseable score file — when the score
file exists but `json.load` fails on it, `save_score` writes back a store
containing only the newly saved record, discarding everything the file
previously held. -/
theorem claim_corrupt_store_reset :
    ∀ (u l : String) (sc : Int) (now : String) (a : Answers),
      save_score ScoreFile.noParse u l sc now a
        = Except.ok (ScoreFile.store [(u, [(l, ⟨sc, now, a⟩)])]) := by
  intro u l sc now a
  simp [save_score, load_scores, save_store, dictGet?, dictInsert,
    Except.map]
